import Mathlib

/-!
Verification of the severity-prediction pipeline of the `calculator`
(IT-ticket severity) repository.

The Python sources are shallowly embedded here:

* `src/src/scoring/severity_scaler.py`  → `SeverityScaler` and its methods;
  floating-point scores are modelled exactly over `ℚ`.
* `src/src/preprocessing/language_detector.py` → `LanguageDetector.*`; the
  external `langdetect.detect` call is an oracle parameter
  (`String → Except String String`), `.error` modelling a raised exception.
* `src/it project/ticket/src/preprocessing/text_cleaner.py` → `TextCleaner.*`;
  the external NLTK `word_tokenize` call is an oracle parameter and the NLTK
  English stop-word lexicon is a data parameter; each Python `re.sub` call is
  embedded as a dedicated scanner implementing exactly that pattern.
* `src/src/features/embeddings.py` → `MultilingualEmbeddings.*`; the
  sentence-transformer model is an oracle parameter.
* `src/src/models/predict.py` → `SeverityPredictor.*`; the pickled regressor
  is an oracle parameter (`List ℚ → Except String ℚ`).
-/

/-! ## Character classes

Python's `\s` on `str` (the whitespace the cleaning regexes and `str.strip`
treat as blank; restricted to the ASCII whitespace that can actually occur in
the repository's en/hi ticket texts). -/

def wsB (c : Char) : Bool :=
  c == ' ' || c == '\t' || c == '\n' || c == '\r' || c == '\x0b' || c == '\x0c'

/-- Python's `\w` word character (`[A-Za-z0-9_]` plus, of the Unicode word
characters, the Devanagari block U+0900–U+097F that the repository's
English/Hindi inputs use). -/
def isWordChar (c : Char) : Bool :=
  c.isAlpha || c.isDigit || c == '_' || (0x900 ≤ c.toNat && c.toNat ≤ 0x97F)

/-- The character set admitted after `http://` / `www.` by the URL regexes
`http[s]?://(?:[a-zA-Z]|[0-9]|[$-_@.&+]|[!*\\(\\),]|(?:%[0-9a-fA-F][0-9a-fA-F]))+`
(the class `[$-_...]` is the ASCII range 0x24–0x5F, which already contains the
digits, the upper-case letters and `%`; `[a-zA-Z]` adds the lower-case letters
and `[!*\\(\\),]` adds `!`, the rest of it being inside 0x24–0x5F). -/
def isUrlChar (c : Char) : Bool :=
  (0x24 ≤ c.toNat && c.toNat ≤ 0x5F) || ('a' ≤ c && c ≤ 'z') || c == '!'

/-! ## Whitespace collapsing and stripping (`re.sub(r'\s+', ' ', ·)`, `str.strip`) -/

/-- Embeds `re.sub(r'\s+', ' ', text)` as a left-to-right scan: `prevWs` records
whether the previous character was whitespace (i.e. whether we are inside a
whitespace run whose single `' '` has already been emitted). -/
def collapseWsAux : Bool → List Char → List Char
  | _, [] => []
  | prevWs, c :: cs =>
    if wsB c then
      if prevWs then collapseWsAux true cs
      else ' ' :: collapseWsAux true cs
    else c :: collapseWsAux false cs

/-- One pass of `re.sub(r'\s+', ' ', text)`: every maximal whitespace run
becomes a single `' '`. -/
def collapseWs (l : List Char) : List Char := collapseWsAux false l

/-- Embeds `str.strip()` from the left: drop leading whitespace. -/
def dropLeadWs (l : List Char) : List Char := l.dropWhile wsB

/-- Embeds `str.strip()` from the right: drop trailing whitespace. -/
def dropTrailWs (l : List Char) : List Char := (l.reverse.dropWhile wsB).reverse

/-- Python `str.strip()`. -/
def pyStripL (l : List Char) : List Char := dropTrailWs (dropLeadWs l)

/-- Python `str.strip()` on `String`. -/
def pyStripS (s : String) : String := String.mk (pyStripL s.data)

/-- Embeds `re.sub(r'\s+', ' ', text)` followed by `.strip()` — the body of
`TextCleaner._normalize_whitespace` (text_cleaner.py lines 144–152). -/
def normalizeWhitespaceL (l : List Char) : List Char := pyStripL (collapseWs l)

/-- Embeds `TextCleaner._normalize_whitespace` on `String`. -/
def normalizeWhitespaceS (s : String) : String := String.mk (normalizeWhitespaceL s.data)

/-! ## A generic `re.sub(pattern, repl, text)` scanner

`matchAt` decides whether the pattern matches at the current position and, if
so, returns the remainder of the text after the (greedy) match, exactly as the
specific Python pattern would.  Scanning is leftmost, non-overlapping, and
continues after each replacement, like `re.sub`.  The fuel argument (always
instantiated with `length + 1`; every matcher consumes at least one character)
only serves termination. -/

def substFuel (matchAt : List Char → Option (List Char)) (repl : List Char) :
    Nat → List Char → List Char
  | 0, l => l
  | _ + 1, [] => []
  | fuel + 1, c :: cs =>
    match matchAt (c :: cs) with
    | some rest => repl ++ substFuel matchAt repl fuel rest
    | none => c :: substFuel matchAt repl fuel cs

/-- Embeds `re.sub(pattern, repl, s)` for a pattern embedded as `matchAt`. -/
def pySub (matchAt : List Char → Option (List Char)) (repl : String) (s : String) : String :=
  String.mk (substFuel matchAt repl.data (s.data.length + 1) s.data)

/-! ## The specific regex matchers used by the repository -/

/-- Matcher for `<[^>]+>` (HTML-tag removal, `TextCleaner._basic_clean`). -/
def matchTag : List Char → Option (List Char)
  | '<' :: rest =>
    let body := rest.takeWhile (fun c => c ≠ '>')
    if body.isEmpty then none
    else
      match rest.drop body.length with
      | '>' :: r2 => some r2
      | _ => none
  | _ => none

/-- Matcher for a run `[ch]{atLeast,}` of one repeated character. -/
def matchRunOf (ch : Char) (atLeast : Nat) (l : List Char) : Option (List Char) :=
  let run := l.takeWhile (fun c => c = ch)
  if atLeast ≤ run.length then some (l.drop run.length) else none

/-- Matcher for `http[s]?://(allowed)+` (URL removal; the same pattern occurs
in `TextCleaner._remove_urls_emails` and `LanguageDetector._clean_for_detection`). -/
def matchHttp : List Char → Option (List Char)
  | 'h' :: 't' :: 't' :: 'p' :: rest =>
    let afterScheme : Option (List Char) :=
      match rest with
      | 's' :: ':' :: '/' :: '/' :: r => some r
      | ':' :: '/' :: '/' :: r => some r
      | _ => none
    match afterScheme with
    | some r =>
      let run := r.takeWhile isUrlChar
      if run.isEmpty then none else some (r.drop run.length)
    | none => none
  | _ => none

/-- Matcher for `www\.(allowed)+` (`TextCleaner._remove_urls_emails`). -/
def matchWww : List Char → Option (List Char)
  | 'w' :: 'w' :: 'w' :: '.' :: r =>
    let run := r.takeWhile isUrlChar
    if run.isEmpty then none else some (r.drop run.length)
  | _ => none

/-- Does the maximal non-whitespace run `run` match `\S+@\S+\.\S+` starting at
its head?  With Python's greedy backtracking this holds exactly when some `'@'`
sits at index `j ≥ 1` and some `'.'` at an index `k` with `j + 2 ≤ k` and at
least one character after `k`; the greedy `\S+` tail then extends the match to
the end of the run. -/
def hasEmailDotPattern (run : List Char) : Bool :=
  (List.range run.length).any fun j =>
    decide (1 ≤ j) && run.getD j ' ' == '@' &&
      ((List.range run.length).any fun k =>
        decide (j + 2 ≤ k) && decide (k + 2 ≤ run.length) && run.getD k ' ' == '.')

/-- Matcher for `\S+@\S+\.\S+` (e-mail removal, `TextCleaner._remove_urls_emails`).
A match, where it exists, always swallows the whole non-whitespace run. -/
def matchEmailDot (l : List Char) : Option (List Char) :=
  let run := l.takeWhile (fun c => !wsB c)
  if hasEmailDotPattern run then some (l.drop run.length) else none

/-- Does the maximal non-whitespace run match `\S+@\S+` starting at its head:
some `'@'` at index `j ≥ 1` with at least one character after it. -/
def hasEmailPattern (run : List Char) : Bool :=
  (List.range run.length).any fun j =>
    decide (1 ≤ j) && decide (j + 2 ≤ run.length) && run.getD j ' ' == '@'

/-- Matcher for `\S+@\S+` (e-mail removal, `LanguageDetector._clean_for_detection`). -/
def matchEmail (l : List Char) : Option (List Char) :=
  let run := l.takeWhile (fun c => !wsB c)
  if hasEmailPattern run then some (l.drop run.length) else none

/-- Matcher for `\s+[^\w\s]\s+` (standalone-punctuation removal,
`TextCleaner._final_cleanup`). -/
def matchLonePunct (l : List Char) : Option (List Char) :=
  let run1 := l.takeWhile wsB
  if run1.isEmpty then none
  else
    match l.drop run1.length with
    | c :: rest =>
      if isWordChar c || wsB c then none
      else
        let run2 := rest.takeWhile wsB
        if run2.isEmpty then none else some (rest.drop run2.length)
    | [] => none

/-- Case-insensitively consume the (lower-case) pattern `ps` from the head of
`l`, returning the remainder. -/
def dropCI : List Char → List Char → Option (List Char)
  | [], l => some l
  | _ :: _, [] => none
  | p :: ps, c :: cs => if c.toLower = p then dropCI ps cs else none

/-! ## Whole-word case-insensitive substitution
(`re.sub(r'\bpat\b', repl, text, flags=re.IGNORECASE)`,
`TextCleaner._normalize_it_terms`).

Every pattern in the table begins and ends with a word character, so the `\b`
boundaries amount to: the preceding character (if any) is not a word
character, and the character following the match (if any) is not a word
character.  `re.sub` finds matches in the original text, so after a match the
"previous character" for the continued scan is the last character of the
matched pattern. -/

def substWordFuel (ps repl : List Char) : Nat → Option Char → List Char → List Char
  | 0, _, l => l
  | _ + 1, _, [] => []
  | fuel + 1, prev, c :: cs =>
    let boundaryOk : Bool :=
      match prev with
      | none => true
      | some p => !isWordChar p
    let matched : Option (List Char) :=
      if boundaryOk then
        match dropCI ps (c :: cs) with
        | some rest =>
          match rest with
          | [] => some rest
          | d :: _ => if isWordChar d then none else some rest
        | none => none
      else none
    match matched with
    | some rest => repl ++ substWordFuel ps repl fuel ps.getLast? rest
    | none => c :: substWordFuel ps repl fuel (some c) cs

/-- One whole-word case-insensitive `re.sub` pass. -/
def pySubWord (pat repl : String) (s : String) : String :=
  String.mk (substWordFuel pat.data repl.data (s.data.length + 1) none s.data)

/-! ## `TextCleaner` (text_cleaner.py) -/

/-- Configuration of a `TextCleaner` instance.  `english_stopwords` stands for
the externally loaded NLTK lexicon (`stopwords.words('english')`; the empty
list models the `except` fallback in `__init__`). -/
structure TextCleaner where
  remove_stopwords : Bool
  lowercase : Bool
  english_stopwords : List String
deriving Repr

/-- The hand-curated Hindi stop-word set (text_cleaner.py lines 26–30). -/
def hindiStopwords : List String :=
  ["और", "का", "के", "की", "को", "से", "में", "पर", "है", "हैं", "था", "थे", "थी",
   "होगा", "होगी", "होंगे", "कि", "जो", "यह", "वह", "इस", "उस", "एक", "दो", "तीन",
   "कुछ", "सब", "कोई", "कहा", "कहे", "कहते", "बहुत", "अधिक", "कम", "ज्यादा"]

/-- The IT-specific preserve set (text_cleaner.py lines 33–38). -/
def preserveTerms : List String :=
  ["server", "database", "network", "email", "password", "login", "error", "bug",
   "crash", "slow", "down", "offline", "online", "backup", "restore", "update",
   "install", "uninstall", "virus", "malware", "firewall", "vpn", "wifi", "internet",
   "browser", "application", "software", "hardware", "printer", "scanner", "monitor"]

/-- Embeds `TextCleaner._basic_clean`: strip `<[^>]+>` tags, collapse `!!+`/`??+`
runs, collapse `...`+ runs, and normalize quotes (the quote classes in the
source are the ASCII classes `["""]` and `[''']`, so those two substitutions
replace a character by itself). -/
def TextCleaner.basicClean (s : String) : String :=
  let s1 := pySub matchTag "" s
  let s2 := pySub (matchRunOf '!' 2) "!" s1
  let s3 := pySub (matchRunOf '?' 2) "?" s2
  let s4 := pySub (matchRunOf '.' 3) "..." s3
  let s5 := String.mk (s4.data.map fun c => if c = '"' then '"' else c)
  String.mk (s5.data.map fun c => if c = '\'' then '\'' else c)

/-- Embeds `TextCleaner._remove_urls_emails`. -/
def TextCleaner.removeUrlsEmails (s : String) : String :=
  let s1 := pySub matchHttp "" s
  let s2 := pySub matchWww "" s1
  pySub matchEmailDot "" s2

/-- The IT-jargon substitution table (text_cleaner.py lines 121–137), in
insertion order. -/
def itTermTable : List (String × String) :=
  [("pc", "computer"), ("laptop", "computer"), ("desktop", "computer"),
   ("wifi", "wireless"), ("internet", "network"), ("app", "application"),
   ("pwd", "password"), ("login", "login"), ("logon", "login"),
   ("sign in", "login"), ("sign on", "login"), ("err", "error"),
   ("bug", "error"), ("issue", "problem"), ("prob", "problem")]

/-- Embeds `TextCleaner._normalize_it_terms`: one whole-word case-insensitive
`re.sub` pass per table entry, in order. -/
def TextCleaner.normalizeItTerms (s : String) : String :=
  itTermTable.foldl (fun acc pr => pySubWord pr.1 pr.2 acc) s

/-- Python `str.lower()` (ASCII case folding, which is all the basic-latin /
Devanagari ticket texts exercise). -/
def strToLower (s : String) : String := String.mk (s.data.map Char.toLower)

/-- Helper for Python `str.split()`: `acc` holds the current word, reversed. -/
def splitWsAux : List Char → List Char → List String
  | [], acc => if acc.isEmpty then [] else [String.mk acc.reverse]
  | c :: cs, acc =>
    if wsB c then
      if acc.isEmpty then splitWsAux cs []
      else String.mk acc.reverse :: splitWsAux cs []
    else splitWsAux cs (c :: acc)

/-- Python `str.split()`: split on whitespace runs, dropping empty pieces. -/
def pySplit (s : String) : List String := splitWsAux s.data []

/-- Python `' '.join(tokens)`. -/
def joinSpace : List String → String
  | [] => ""
  | [t] => t
  | t :: ts => String.mk (t.data ++ ' ' :: (joinSpace ts).data)

/-- String equality as a Boolean (Python `in` on a list of strings). -/
def strEqB (a b : String) : Bool := a.data == b.data

/-- Python `x in l` for a list of strings. -/
def containsS (l : List String) (x : String) : Bool := l.any fun t => strEqB t x

/-- The short words kept by `_final_cleanup` (text_cleaner.py line 185). -/
def importantShort : List String := ["it", "is", "in", "on", "at", "to", "of", "or", "no"]

/-- Embeds `TextCleaner._final_cleanup`: drop standalone punctuation
(`\s+[^\w\s]\s+` → `' '`), collapse whitespace, then drop tokens shorter than
2 characters unless whitelisted. -/
def TextCleaner.finalCleanup (s : String) : String :=
  let s1 := pySub matchLonePunct " " s
  let s2 := String.mk (collapseWs s1.data)
  let tokens := pySplit s2
  let tokens := tokens.filter fun t => 2 ≤ t.length || containsS importantShort (strToLower t)
  joinSpace tokens

/-- Embeds `TextCleaner._remove_stopwords`.  `tokenize` is the external NLTK
`word_tokenize`; a `.error` result models a raised exception, in which case
the text is returned unchanged (the logged-warning fallback). -/
def TextCleaner.removeStopwordsStep (cfg : TextCleaner)
    (tokenize : String → Except String (List String)) (s : String)
    (language : String) : String :=
  match tokenize s with
  | .error _ => s
  | .ok tokens =>
    let stopset := if language = "hi" then hindiStopwords else cfg.english_stopwords
    let filtered := tokens.filter fun t =>
      !containsS stopset (strToLower t) || containsS preserveTerms (strToLower t)
    joinSpace filtered

/-- Embeds `TextCleaner.clean_text` (text_cleaner.py lines 52–89): the seven-stage
cleaning pipeline followed by a final `strip`. -/
def TextCleaner.clean_text (cfg : TextCleaner)
    (tokenize : String → Except String (List String))
    (text : String) (language : String) : String :=
  if text = "" then ""
  else
    let s1 := TextCleaner.basicClean text
    let s2 := TextCleaner.removeUrlsEmails s1
    let s3 := TextCleaner.normalizeItTerms s2
    let s4 := normalizeWhitespaceS s3
    let s5 := if cfg.lowercase then strToLower s4 else s4
    let s6 := if cfg.remove_stopwords then cfg.removeStopwordsStep tokenize s5 language else s5
    pyStripS (TextCleaner.finalCleanup s6)

/-! ## `LanguageDetector` (language_detector.py) -/

/-- Embeds `LanguageDetector._clean_for_detection`: remove URLs and `\S+@\S+`
e-mails, replace every character outside `\w`, `\s` and the Devanagari block
by a space, collapse whitespace and strip. -/
def LanguageDetector.cleanForDetection (s : String) : String :=
  let s1 := pySub matchHttp "" s
  let s2 := pySub matchEmail "" s1
  let s3 := String.mk (s2.data.map fun c => if isWordChar c || wsB c then c else ' ')
  normalizeWhitespaceS s3

/-- Embeds `LanguageDetector.detect_language` (language_detector.py lines 17–50).
`oracle` is the external `langdetect.detect`; `.error` models a raised
`LangDetectException`, caught by the `except` arm. -/
def LanguageDetector.detect_language (oracle : String → Except String String)
    (text : String) : String :=
  if text = "" || (pyStripS text).length < 3 then "en"
  else if LanguageDetector.cleanForDetection text = "" then "en"
  else
    match oracle (LanguageDetector.cleanForDetection text) with
    | .error _ => "en"
    | .ok lang => if lang = "en" || lang = "hi" then lang else "en"

/-! ## `SeverityScaler` (severity_scaler.py)

Scores are modelled exactly over `ℚ`.  The inner sklearn `MinMaxScaler`
state (`data_min_`, `data_max_`, mirrored by `original_min` / `original_max`)
is carried in `data_min` / `data_max`; `none` stands for Python `None`
(unfitted).  A raised exception is modelled as `none` from the
`Option`-valued methods. -/

structure SeverityScaler where
  min_score : ℚ
  max_score : ℚ
  is_fitted : Bool
  data_min : Option ℚ
  data_max : Option ℚ
deriving Repr, DecidableEq

/-- Embeds `SeverityScaler.__init__(min_score, max_score)`. -/
def SeverityScaler.init (mn mx : ℚ) : SeverityScaler :=
  { min_score := mn, max_score := mx, is_fitted := false, data_min := none, data_max := none }

/-- Embeds `SeverityScaler()` with the default bounds 10.0 and 100.0. -/
def defaultScaler : SeverityScaler := SeverityScaler.init 10 100

/-- Embeds `np.min` over a list. -/
def listMin : List ℚ → Option ℚ
  | [] => none
  | x :: xs => some (xs.foldl min x)

/-- Embeds `np.max` over a list. -/
def listMax : List ℚ → Option ℚ
  | [] => none
  | x :: xs => some (xs.foldl max x)

/-- Embeds `SeverityScaler.fit` (severity_scaler.py lines 30–63): records the data
min/max and fits the inner `MinMaxScaler`; `none` models the `ValueError`
raised on an empty list. -/
def SeverityScaler.fit (sc : SeverityScaler) (predictions : List ℚ) : Option SeverityScaler :=
  match listMin predictions, listMax predictions with
  | some dmin, some dmax =>
    some { sc with is_fitted := true, data_min := some dmin, data_max := some dmax }
  | _, _ => none

/-- Embeds `SeverityScaler._remap_score` (severity_scaler.py lines 103–128). -/
def SeverityScaler.remapScore (score : ℚ) : ℚ :=
  if score ≥ 60 then 90 + ((score - 60) / 40) * 10
  else if score ≥ 40 then 80 + ((score - 40) / 20) * 9
  else 10 + ((score - 10) / 30) * 69

/-- Embeds `SeverityScaler.transform` on a single prediction (severity_scaler.py
lines 75–85): the inner `MinMaxScaler` linear map
`x * scale_ + min_` (with `scale_ = (max_score - min_score) / data_range`,
`min_ = min_score - data_min * scale_`, and sklearn's
`_handle_zeros_in_scale` turning a zero data range into a divisor of 1),
followed by `_remap_score`.  `none` models the `ValueError` raised when the
scaler is not fitted. -/
def SeverityScaler.transform (sc : SeverityScaler) (x : ℚ) : Option ℚ :=
  if sc.is_fitted = false then none
  else
    match sc.data_min, sc.data_max with
    | some dmin, some dmax =>
      let range := dmax - dmin
      let range' := if range = 0 then 1 else range
      let scale := (sc.max_score - sc.min_score) / range'
      let minAdj := sc.min_score - dmin * scale
      some (SeverityScaler.remapScore (x * scale + minAdj))
    | _, _ => none

/-- Embeds `SeverityScaler.get_severity_category` (severity_scaler.py lines 173–190). -/
def SeverityScaler.get_severity_category (_sc : SeverityScaler) (score : ℚ) : String :=
  if score ≥ 90 then "High"
  else if score ≥ 80 then "Medium"
  else if score ≥ 10 then "Low"
  else "Low"

/-- Embeds `SeverityScaler.clip_scores` on a single score (severity_scaler.py lines
253–254): `np.clip(x, min_score, max_score) = min(max(x, min_score), max_score)`. -/
def SeverityScaler.clip_scores (sc : SeverityScaler) (x : ℚ) : ℚ :=
  min sc.max_score (max sc.min_score x)

/-! ## `MultilingualEmbeddings` (embeddings.py)

The sentence-transformer is the oracle `modelEncode`; `.error` models a
raised exception from `self.model.encode`. -/

/-- Embeds `np.zeros(dim)`. -/
def zeroVec (dim : Nat) : List ℚ := List.replicate dim 0

/-- Embeds `MultilingualEmbeddings.encode_single_text` (embeddings.py lines 78–97):
empty / whitespace-only text short-circuits to the zero vector, and an
exception from the underlying model is caught and also yields the zero
vector. -/
def MultilingualEmbeddings.encode_single_text (dim : Nat)
    (modelEncode : String → Except String (List ℚ)) (text : String) : List ℚ :=
  if pyStripS text = "" then zeroVec dim
  else
    match modelEncode text with
    | .ok emb => emb
    | .error _ => zeroVec dim

/-! ## `SeverityPredictor` (predict.py)

The loaded collaborators (regressor, embedding model, detection library,
tokenizer, stop-word lexicon) are oracle fields; `.error` models a raised
exception.  `calcConfidence` abstracts `_calculate_confidence`, which is a
total function of the feature vector (it catches its own exceptions and the
regressor internals it reads are fixed after loading). -/

structure PredictorEnv where
  scaler : SeverityScaler
  cleaner : TextCleaner
  tokenize : String → Except String (List String)
  detectOracle : String → Except String String
  embedDim : Nat
  modelEncode : String → Except String (List ℚ)
  modelPredict : List ℚ → Except String ℚ
  calcConfidence : List ℚ → ℚ

/-- The result dictionary of `predict_single` / `predict_batch`.  Fields that
a given code path leaves out of the Python dict are `none`. -/
structure PredictResult where
  severity_score : ℚ
  severity_category : String
  confidence : ℚ
  processed_text : Option String
  detected_language : Option String
  error : Option String
  ticket_index : Option Nat
deriving Repr, DecidableEq

/-- Embeds `SeverityPredictor.preprocess_text` (predict.py lines 76–97): detect the
language, then clean.  Both stages are total (they catch their own
exceptions), so the surrounding `except` fallback to the original text is
unreachable. -/
def SeverityPredictor.preprocess_text (env : PredictorEnv) (text : String) : String :=
  let language := LanguageDetector.detect_language env.detectOracle text
  env.cleaner.clean_text env.tokenize text language

/-- Embeds `SeverityPredictor.predict_single` (predict.py lines 120–179).
Empty/whitespace input short-circuits; any exception escaping the pipeline
(the regressor oracle, or an unfitted scaler) is caught and converted into
the degraded `50.0 / Medium / 0.0` result carrying the exception text in
`error`. -/
def SeverityPredictor.predict_single (env : PredictorEnv) (ticket_text : String) :
    PredictResult :=
  if pyStripS ticket_text = "" then
    { severity_score := 10, severity_category := "Low", confidence := 0,
      processed_text := none, detected_language := none,
      error := some "Empty or invalid input text", ticket_index := none }
  else
    let processed := SeverityPredictor.preprocess_text env ticket_text
    let features := MultilingualEmbeddings.encode_single_text env.embedDim env.modelEncode processed
    match env.modelPredict features with
    | .error e =>
      { severity_score := 50, severity_category := "Medium", confidence := 0,
        processed_text := none, detected_language := none,
        error := some e, ticket_index := none }
    | .ok rawPrediction =>
      match env.scaler.transform rawPrediction with
      | none =>
        { severity_score := 50, severity_category := "Medium", confidence := 0,
          processed_text := none, detected_language := none,
          error := some "Scaler must be fitted before transform", ticket_index := none }
      | some scaled =>
        let severity_score := env.scaler.clip_scores scaled
        { severity_score := severity_score,
          severity_category := env.scaler.get_severity_category severity_score,
          confidence := env.calcConfidence features,
          processed_text := some processed,
          detected_language := some (LanguageDetector.detect_language env.detectOracle ticket_text),
          error := none, ticket_index := none }

/-- Embeds `SeverityPredictor.predict_batch` (predict.py lines 181–204): apply
`predict_single` to each text in order and tag each result with its index. -/
def SeverityPredictor.predict_batch (env : PredictorEnv) (ticket_texts : List String) :
    List PredictResult :=
  ticket_texts.enum.map fun it =>
    { SeverityPredictor.predict_single env it.2 with ticket_index := some it.1 }

/-! ## Spec-side definitions (for the refinement claim C4)

These follow the WORDS of spec.md §4.4, to be compared with the
source-derived `SeverityScaler.transform`. -/

/-- Spec §4.4 Stage A: "min-max normalize the raw score into [10, 100] using
the fitted min/max (values outside the fitted range extrapolate linearly)". -/
def specStageA (dmin dmax x : ℚ) : ℚ :=
  10 + (x - dmin) / (dmax - dmin) * (100 - 10)

/-- Spec §4.4 Stage B: the piecewise remap on Stage A's output `s`, exactly
as the three spec bullets state it. -/
def specStageB (s : ℚ) : ℚ :=
  if 60 ≤ s then 90 + ((s - 60) / 40) * 10
  else if 40 ≤ s ∧ s < 60 then 80 + ((s - 40) / 20) * 9
  else 10 + ((s - 10) / 30) * 69

/-- Spec §4.4: `transform` as Stage A followed by Stage B. -/
def specTransform (dmin dmax x : ℚ) : ℚ := specStageB (specStageA dmin dmax x)

/-! ## Concrete instances for witnesses and counterexamples -/

/-- The scaler produced by fitting the default scaler on the training raw
scores `[0.1, 0.3, 0.5, 0.7, 0.9, 1.2, 1.5]` of the spec's boundary
scenario. -/
def trainedScaler : SeverityScaler :=
  { min_score := 10, max_score := 100, is_fitted := true,
    data_min := some (1/10), data_max := some (3/2) }

/-- A concrete stand-in for NLTK `word_tokenize`: whitespace splitting, which
agrees with `word_tokenize` on the plain-word texts it is applied to below. -/
def simpleTokenize : String → Except String (List String) :=
  fun s => .ok (pySplit s)

/-- A `TextCleaner(remove_stopwords=True, lowercase=True)` with a small
concrete English stop-word lexicon. -/
def cexCleaner : TextCleaner :=
  { remove_stopwords := true, lowercase := true,
    english_stopwords := ["the", "is", "a", "and"] }

/-- A concrete predictor environment whose underlying sentence-transformer
model raises on every input (so every encode step fails) while the regressor
and the fitted scaler work normally. -/
def cexEnv : PredictorEnv :=
  { scaler := { min_score := 10, max_score := 100, is_fitted := true,
                data_min := some 0, data_max := some 1 }
    cleaner := cexCleaner
    tokenize := simpleTokenize
    detectOracle := fun _ => .ok "en"
    embedDim := 3
    modelEncode := fun _ => .error "model failure"
    modelPredict := fun _ => .ok (1/2)
    calcConfidence := fun _ => 4/5 }

/-- A concrete predictor environment whose regressor raises on every input. -/
def failEnv : PredictorEnv :=
  { cexEnv with
    modelEncode := fun _ => .ok [1, 0, 0]
    modelPredict := fun _ => .error "regressor failure" }

/-! ## A normal form for whitespace-collapsed text (used to prove the
idempotence of `_normalize_whitespace`) -/

/-- Normal-form predicate: `okAfter prevWs l` holds when every whitespace character in `l` is a plain `' '`
and never follows another whitespace character (`prevWs` records whether the
character before `l` was whitespace). -/
def okAfter : Bool → List Char → Bool
  | _, [] => true
  | prevWs, c :: cs =>
    (if wsB c then c == ' ' && !prevWs else true) && okAfter (wsB c) cs

/-- Is the head character (if any) whitespace? -/
def headWs : List Char → Bool
  | [] => false
  | c :: _ => wsB c

/-! # Theorems -/

/-! ## The score scaler -/

/-- The source's `_remap_score` if-chain coincides with the spec's three-case
Stage B. -/
theorem remapScore_eq_specStageB (s : ℚ) : SeverityScaler.remapScore s = specStageB s := by
  unfold SeverityScaler.remapScore specStageB
  rcases le_or_lt 60 s with h1 | h1
  · rw [if_pos (show s ≥ 60 from h1), if_pos h1]
  · rcases le_or_lt 40 s with h2 | h2
    · rw [if_neg (show ¬s ≥ 60 from not_le.mpr h1), if_pos (show s ≥ 40 from h2),
        if_neg (not_le.mpr h1), if_pos (show 40 ≤ s ∧ s < 60 from ⟨h2, h1⟩)]
    · rw [if_neg (show ¬s ≥ 60 from not_le.mpr h1), if_neg (show ¬s ≥ 40 from not_le.mpr h2),
        if_neg (not_le.mpr h1),
        if_neg (show ¬(40 ≤ s ∧ s < 60) from fun h => absurd h.1 (not_le.mpr h2))]

/-- C4: For every fitted scaler (with the default bounds 10/100 and a
non-degenerate fitted range) and every raw score `x`, `transform x` is
Stage A (linear min-max scaling of `x` into `[10, 100]` by the fitted
min/max, extrapolating without clamping) followed by the piecewise Stage B
remap exactly as the spec states it. -/
theorem transform_eq_spec_two_stage (dmin dmax x : ℚ) (hlt : dmin < dmax) :
    SeverityScaler.transform
      { min_score := 10, max_score := 100, is_fitted := true,
        data_min := some dmin, data_max := some dmax } x
      = some (specTransform dmin dmax x) := by
  have hne : dmax - dmin ≠ 0 := sub_ne_zero.mpr (ne_of_gt hlt)
  unfold SeverityScaler.transform
  simp only [if_neg hne, reduceCtorEq, if_false]
  rw [remapScore_eq_specStageB]
  unfold specTransform specStageA
  congr 1
  field_simp
  ring_nf

/-- C4 witness: the two-stage equation instantiated at the fitted range
`[0, 1]` and the out-of-range raw score `2`. -/
theorem transform_eq_spec_two_stage_witness :
    SeverityScaler.transform
      { min_score := 10, max_score := 100, is_fitted := true,
        data_min := some (0 : ℚ), data_max := some 1 } 2
      = some (specTransform 0 1 2) :=
  transform_eq_spec_two_stage 0 1 2 (by norm_num)

/-- C5: Fitting the default scaler on the raw scores
`[0.1, 0.3, 0.5, 0.7, 0.9, 1.2, 1.5]` yields `trainedScaler`, and both range
boundaries are preserved exactly through the linear stage and the piecewise
remap: `transform 0.1 = 10` and `transform 1.5 = 100`. -/
theorem fit_transform_boundary_preservation :
    defaultScaler.fit [1/10, 3/10, 5/10, 7/10, 9/10, 12/10, 15/10] = some trainedScaler ∧
    trainedScaler.transform (1/10) = some 10 ∧
    trainedScaler.transform (3/2) = some 100 := by
  refine ⟨?_, ?_, ?_⟩
  · unfold defaultScaler SeverityScaler.init SeverityScaler.fit listMin listMax trainedScaler
    norm_num [min_def, max_def]
  · unfold trainedScaler SeverityScaler.transform SeverityScaler.remapScore
    norm_num
  · unfold trainedScaler SeverityScaler.transform SeverityScaler.remapScore
    norm_num

/-- C8: `get_severity_category` is a pure, deterministic, total function of
the score (it reads nothing from the scaler instance): the result is always
one of `High`/`Medium`/`Low`, with `High` iff `score ≥ 90`, `Medium` iff
`80 ≤ score < 90`, and `Low` otherwise — including every score below 10. -/
theorem severity_category_pure_thresholds (sc : SeverityScaler) (s : ℚ) :
    (sc.get_severity_category s = "High" ∨ sc.get_severity_category s = "Medium" ∨
      sc.get_severity_category s = "Low") ∧
    (sc.get_severity_category s = "High" ↔ 90 ≤ s) ∧
    (sc.get_severity_category s = "Medium" ↔ 80 ≤ s ∧ s < 90) ∧
    (sc.get_severity_category s = "Low" ↔ s < 80) ∧
    (∀ sc2 : SeverityScaler, sc.get_severity_category s = sc2.get_severity_category s) := by
  have hpure : ∀ sc2 : SeverityScaler,
      sc.get_severity_category s = sc2.get_severity_category s := fun _ => rfl
  rcases le_or_lt 90 s with h1 | h1
  · have hv : sc.get_severity_category s = "High" := by
      unfold SeverityScaler.get_severity_category
      rw [if_pos (show s ≥ 90 from h1)]
    refine ⟨Or.inl hv, ?_, ?_, ?_, hpure⟩
    · rw [hv]; exact iff_of_true rfl h1
    · rw [hv]; exact iff_of_false (by decide) fun h => absurd h.2 (not_lt.mpr h1)
    · rw [hv]; exact iff_of_false (by decide) (not_lt.mpr (by linarith))
  · rcases le_or_lt 80 s with h2 | h2
    · have hv : sc.get_severity_category s = "Medium" := by
        unfold SeverityScaler.get_severity_category
        rw [if_neg (show ¬s ≥ 90 from not_le.mpr h1), if_pos (show s ≥ 80 from h2)]
      refine ⟨Or.inr (Or.inl hv), ?_, ?_, ?_, hpure⟩
      · rw [hv]; exact iff_of_false (by decide) (not_le.mpr h1)
      · rw [hv]; exact iff_of_true rfl ⟨h2, h1⟩
      · rw [hv]; exact iff_of_false (by decide) (not_lt.mpr h2)
    · have hv : sc.get_severity_category s = "Low" := by
        unfold SeverityScaler.get_severity_category
        rw [if_neg (show ¬s ≥ 90 from not_le.mpr h1), if_neg (show ¬s ≥ 80 from not_le.mpr h2)]
        split_ifs <;> rfl
      refine ⟨Or.inr (Or.inr hv), ?_, ?_, ?_, hpure⟩
      · rw [hv]; exact iff_of_false (by decide) (not_le.mpr (by linarith))
      · rw [hv]; exact iff_of_false (by decide) fun h => absurd h.1 (not_le.mpr h2)
      · rw [hv]; exact iff_of_true rfl h2

/-- C10: `_remap_score` is strictly monotonically increasing over all of ℚ
(each branch has positive slope and the values jump upward across the 40 and
60 boundaries), and consequently `transform` of a default-configured fitted
scaler with a non-degenerate fitted range preserves the strict order of raw
scores. -/
theorem remap_and_transform_strict_mono :
    (∀ s1 s2 : ℚ, s1 < s2 → SeverityScaler.remapScore s1 < SeverityScaler.remapScore s2) ∧
    (∀ dmin dmax x y a b : ℚ, dmin < dmax → x < y →
      SeverityScaler.transform
        { min_score := 10, max_score := 100, is_fitted := true,
          data_min := some dmin, data_max := some dmax } x = some a →
      SeverityScaler.transform
        { min_score := 10, max_score := 100, is_fitted := true,
          data_min := some dmin, data_max := some dmax } y = some b →
      a < b) := by
  have hmono : ∀ s1 s2 : ℚ, s1 < s2 →
      SeverityScaler.remapScore s1 < SeverityScaler.remapScore s2 := by
    intro s1 s2 hlt
    unfold SeverityScaler.remapScore
    rcases le_or_lt 60 s1 with h1 | h1 <;> rcases le_or_lt 60 s2 with h2 | h2 <;>
      rcases le_or_lt 40 s1 with h3 | h3 <;> rcases le_or_lt 40 s2 with h4 | h4 <;>
      split_ifs <;> linarith
  refine ⟨hmono, ?_⟩
  intro dmin dmax x y a b hr hxy ha hb
  have hne : dmax - dmin ≠ 0 := sub_ne_zero.mpr (ne_of_gt hr)
  unfold SeverityScaler.transform at ha hb
  simp only [if_neg hne, reduceCtorEq, if_false, Option.some.injEq] at ha hb
  subst ha hb
  apply hmono
  have hpos : 0 < (100 - 10 : ℚ) / (dmax - dmin) := div_pos (by norm_num) (by linarith)
  have := mul_lt_mul_of_pos_right hxy hpos
  linarith

/-- C10 witness: strict monotonicity instantiated at remap inputs `0 < 1` and
at the fitted range `[0, 1]` with raw scores `0 < 1`, whose transforms are
`10` and `100`. -/
theorem remap_and_transform_strict_mono_witness :
    SeverityScaler.remapScore 0 < SeverityScaler.remapScore 1 ∧ (10 : ℚ) < 100 :=
  ⟨remap_and_transform_strict_mono.1 0 1 (by norm_num),
   remap_and_transform_strict_mono.2 0 1 0 1 10 100 (by norm_num) (by norm_num)
     (by unfold SeverityScaler.transform SeverityScaler.remapScore; norm_num)
     (by unfold SeverityScaler.transform SeverityScaler.remapScore; norm_num)⟩

/-! ## The language detector -/

/-- C6: `detect_language` is total with range `{en, hi}`: any oracle outcome
yields `"en"` or `"hi"`; input stripping to fewer than 3 characters yields
`"en"` for every oracle (the detection library is not consulted); an oracle
answer outside `{en, hi}` is coerced to `"en"`; and an oracle exception is
caught and yields `"en"`. -/
theorem detect_language_total_en_hi :
    (∀ (oracle : String → Except String String) (t : String),
      LanguageDetector.detect_language oracle t = "en" ∨
        LanguageDetector.detect_language oracle t = "hi") ∧
    (∀ (oracle : String → Except String String) (t : String),
      (pyStripS t).length < 3 → LanguageDetector.detect_language oracle t = "en") ∧
    (∀ (oracle : String → Except String String) (t lang : String),
      oracle (LanguageDetector.cleanForDetection t) = .ok lang →
      lang ≠ "en" → lang ≠ "hi" → LanguageDetector.detect_language oracle t = "en") ∧
    (∀ (oracle : String → Except String String) (t msg : String),
      oracle (LanguageDetector.cleanForDetection t) = .error msg →
      LanguageDetector.detect_language oracle t = "en") := by
  refine ⟨?_, ?_, ?_, ?_⟩
  · intro oracle t
    unfold LanguageDetector.detect_language
    split
    · exact Or.inl rfl
    · split
      · exact Or.inl rfl
      · cases h : oracle (LanguageDetector.cleanForDetection t) with
        | error e => exact Or.inl rfl
        | ok lang =>
          by_cases h1 : lang = "en"
          · simp [h1]
          · by_cases h2 : lang = "hi"
            · simp [h1, h2]
            · simp [h1, h2]
  · intro oracle t hlen
    unfold LanguageDetector.detect_language
    rw [if_pos]
    simp [hlen]
  · intro oracle t lang hok h1 h2
    unfold LanguageDetector.detect_language
    split
    · rfl
    · split
      · rfl
      · rw [hok]
        simp [h1, h2]
  · intro oracle t msg herr
    unfold LanguageDetector.detect_language
    split
    · rfl
    · split
      · rfl
      · rw [herr]

/-- C6 witness: the detector instantiated at concrete oracles and inputs —
a short input, an unsupported-language oracle answer, and an oracle that
raises. -/
theorem detect_language_total_en_hi_witness :
    LanguageDetector.detect_language (fun _ => .ok "fr") "ab" = "en" ∧
    LanguageDetector.detect_language (fun _ => .ok "fr") "hello world" = "en" ∧
    LanguageDetector.detect_language (fun _ => .error "boom") "hello world" = "en" :=
  ⟨detect_language_total_en_hi.2.1 (fun _ => .ok "fr") "ab" (by decide),
   detect_language_total_en_hi.2.2.1 (fun _ => .ok "fr") "hello world" "fr" rfl
     (by decide) (by decide),
   detect_language_total_en_hi.2.2.2 (fun _ => .error "boom") "hello world" "boom" rfl⟩

/-! ## The predictor -/

/-- The `clip_scores` method with the default bounds clamps into `[10, 100]`. -/
theorem clip_scores_bounds (sc : SeverityScaler) (x : ℚ)
    (h1 : sc.min_score = 10) (h2 : sc.max_score = 100) :
    10 ≤ sc.clip_scores x ∧ sc.clip_scores x ≤ 100 := by
  unfold SeverityScaler.clip_scores
  rw [h1, h2]
  exact ⟨le_min (by norm_num) (le_max_left _ _), min_le_left _ _⟩

/-- The degraded result produced by `predict_single`'s exception handler. -/
theorem predict_single_regressor_error (env : PredictorEnv) (t msg : String)
    (h1 : pyStripS t ≠ "")
    (h2 : env.modelPredict (MultilingualEmbeddings.encode_single_text env.embedDim
            env.modelEncode (SeverityPredictor.preprocess_text env t)) = .error msg) :
    SeverityPredictor.predict_single env t =
      { severity_score := 50, severity_category := "Medium", confidence := 0,
        processed_text := none, detected_language := none,
        error := some msg, ticket_index := none } := by
  unfold SeverityPredictor.predict_single
  rw [if_neg h1]
  simp only [h2]

/-- The normal result produced by `predict_single` when regression and
scaling succeed. -/
theorem predict_single_ok (env : PredictorEnv) (t : String) (raw s : ℚ)
    (h1 : pyStripS t ≠ "")
    (h2 : env.modelPredict (MultilingualEmbeddings.encode_single_text env.embedDim
            env.modelEncode (SeverityPredictor.preprocess_text env t)) = .ok raw)
    (h3 : env.scaler.transform raw = some s) :
    SeverityPredictor.predict_single env t =
      { severity_score := env.scaler.clip_scores s,
        severity_category := env.scaler.get_severity_category (env.scaler.clip_scores s),
        confidence := env.calcConfidence (MultilingualEmbeddings.encode_single_text
          env.embedDim env.modelEncode (SeverityPredictor.preprocess_text env t)),
        processed_text := some (SeverityPredictor.preprocess_text env t),
        detected_language := some (LanguageDetector.detect_language env.detectOracle t),
        error := none, ticket_index := none } := by
  unfold SeverityPredictor.predict_single
  rw [if_neg h1]
  simp only [h2, h3]

/-- C1: `clip_scores` always lands in `[10, 100]` (with the default bounds),
and the `severity_score` of every `predict_single` result — the clipped
success path, the empty-input path, and the exception-fallback path — lies
in `[10, 100]`. -/
theorem severity_score_always_in_range :
    (∀ (sc : SeverityScaler) (x : ℚ), sc.min_score = 10 → sc.max_score = 100 →
      10 ≤ sc.clip_scores x ∧ sc.clip_scores x ≤ 100) ∧
    (∀ (env : PredictorEnv) (t : String),
      env.scaler.min_score = 10 → env.scaler.max_score = 100 →
      10 ≤ (SeverityPredictor.predict_single env t).severity_score ∧
        (SeverityPredictor.predict_single env t).severity_score ≤ 100) := by
  refine ⟨fun sc x h1 h2 => clip_scores_bounds sc x h1 h2, ?_⟩
  intro env t h1 h2
  simp only [SeverityPredictor.predict_single]
  split
  · constructor <;> norm_num
  · split
    · constructor <;> norm_num
    · split
      · constructor <;> norm_num
      · exact clip_scores_bounds _ _ h1 h2

/-- C1 witness: the bounds instantiated at the concrete environment `cexEnv`
(whose scaler carries the default bounds), at the raw score `123` and at the
empty ticket text. -/
theorem severity_score_always_in_range_witness :
    (10 ≤ cexEnv.scaler.clip_scores 123 ∧ cexEnv.scaler.clip_scores 123 ≤ 100) ∧
    (10 ≤ (SeverityPredictor.predict_single cexEnv "").severity_score ∧
      (SeverityPredictor.predict_single cexEnv "").severity_score ≤ 100) :=
  ⟨severity_score_always_in_range.1 cexEnv.scaler 123 rfl rfl,
   severity_score_always_in_range.2 cexEnv "" rfl rfl⟩

/-- C3: for every environment (hence without consulting the embedding model,
the regressor, or the language detector) an empty or whitespace-only ticket
text short-circuits to the fixed sentinel result: score 10.0, category
`Low`, confidence 0.0. -/
theorem empty_input_sentinel_result (env : PredictorEnv) (t : String)
    (h : pyStripS t = "") :
    SeverityPredictor.predict_single env t =
      { severity_score := 10, severity_category := "Low", confidence := 0,
        processed_text := none, detected_language := none,
        error := some "Empty or invalid input text", ticket_index := none } := by
  unfold SeverityPredictor.predict_single
  rw [if_pos h]

/-- C3 witness: the sentinel result at the whitespace-only text `"   "` in
the concrete environment `cexEnv`. -/
theorem empty_input_sentinel_result_witness :
    SeverityPredictor.predict_single cexEnv "   " =
      { severity_score := 10, severity_category := "Low", confidence := 0,
        processed_text := none, detected_language := none,
        error := some "Empty or invalid input text", ticket_index := none } :=
  empty_input_sentinel_result cexEnv "   " (by decide)

/-- Evaluation of the concrete scaler in `cexEnv` at the raw score `1/2`. -/
theorem cexEnv_transform_half : cexEnv.scaler.transform (1/2) = some (347/4) := by
  unfold cexEnv SeverityScaler.transform SeverityScaler.remapScore
  norm_num

/-- C2 counterexample: in `cexEnv` the embedding encode step fails (the
underlying model raises on every input), yet `predict_single` does NOT
return the degraded result — it silently continues on the zero-vector
fallback embedding, producing a result with no `error` field and a severity
score different from 50.0.  This refutes the claim that an encode failure is
surfaced as the degraded `50.0 / Medium / 0.0 / error` result. -/
theorem encode_failure_silently_continues_cex :
    cexEnv.modelEncode (SeverityPredictor.preprocess_text cexEnv "Server down")
        = .error "model failure" ∧
    (SeverityPredictor.predict_single cexEnv "Server down").error = none ∧
    (SeverityPredictor.predict_single cexEnv "Server down").severity_score ≠ 50 := by
  have hzero : MultilingualEmbeddings.encode_single_text cexEnv.embedDim cexEnv.modelEncode
      (SeverityPredictor.preprocess_text cexEnv "Server down") = zeroVec cexEnv.embedDim := by
    unfold MultilingualEmbeddings.encode_single_text
    split
    · rfl
    · rfl
  have hok := predict_single_ok cexEnv "Server down" (1/2) (347/4) (by decide)
    (by rw [hzero]; rfl) cexEnv_transform_half
  refine ⟨rfl, ?_, ?_⟩
  · rw [hok]
  · rw [hok]
    show cexEnv.scaler.clip_scores (347/4) ≠ 50
    unfold cexEnv SeverityScaler.clip_scores
    norm_num [min_def, max_def]

/-- C2 amended: an exception from the underlying embedding model is caught
inside `encode_single_text` and silently replaced by the zero vector; the
pipeline then continues and, when regression and scaling succeed,
`predict_single` returns a normal result (no `error` field) computed from
the zero embedding.  The degraded `50.0 / Medium / 0.0 / error` result is
produced only when a failure reaches `predict_single`'s own handler — e.g.
when the regressor raises. -/
theorem encode_failure_silent_zero_fallback :
    (∀ (dim : Nat) (enc : String → Except String (List ℚ)) (txt msg : String),
      enc txt = .error msg →
      MultilingualEmbeddings.encode_single_text dim enc txt = zeroVec dim) ∧
    (∀ (env : PredictorEnv) (t msg : String) (raw s : ℚ),
      pyStripS t ≠ "" →
      env.modelEncode (SeverityPredictor.preprocess_text env t) = .error msg →
      env.modelPredict (zeroVec env.embedDim) = .ok raw →
      env.scaler.transform raw = some s →
      SeverityPredictor.predict_single env t =
        { severity_score := env.scaler.clip_scores s,
          severity_category := env.scaler.get_severity_category (env.scaler.clip_scores s),
          confidence := env.calcConfidence (zeroVec env.embedDim),
          processed_text := some (SeverityPredictor.preprocess_text env t),
          detected_language := some (LanguageDetector.detect_language env.detectOracle t),
          error := none, ticket_index := none }) ∧
    (∀ (env : PredictorEnv) (t msg : String),
      pyStripS t ≠ "" →
      env.modelPredict (MultilingualEmbeddings.encode_single_text env.embedDim
        env.modelEncode (SeverityPredictor.preprocess_text env t)) = .error msg →
      SeverityPredictor.predict_single env t =
        { severity_score := 50, severity_category := "Medium", confidence := 0,
          processed_text := none, detected_language := none,
          error := some msg, ticket_index := none }) := by
  have hzero : ∀ (dim : Nat) (enc : String → Except String (List ℚ)) (txt msg : String),
      enc txt = .error msg →
      MultilingualEmbeddings.encode_single_text dim enc txt = zeroVec dim := by
    intro dim enc txt msg h
    unfold MultilingualEmbeddings.encode_single_text
    split
    · rfl
    · rw [h]
  refine ⟨hzero, ?_, fun env t msg h1 h2 => predict_single_regressor_error env t msg h1 h2⟩
  intro env t msg raw s h1 h2 h3 h4
  have hz := hzero env.embedDim env.modelEncode (SeverityPredictor.preprocess_text env t) msg h2
  have hok := predict_single_ok env t raw s h1 (by rw [hz]; exact h3) h4
  rw [hok, hz]

/-- C2 amended witness: the three statements instantiated in the concrete
environments — an always-raising encoder, `cexEnv` (encode fails, regressor
succeeds on the zero vector), and `failEnv` (regressor raises). -/
theorem encode_failure_silent_zero_fallback_witness :
    MultilingualEmbeddings.encode_single_text 2 (fun _ => .error "x") "hey" = zeroVec 2 ∧
    SeverityPredictor.predict_single cexEnv "Server down" =
      { severity_score := cexEnv.scaler.clip_scores (347/4),
        severity_category := cexEnv.scaler.get_severity_category
          (cexEnv.scaler.clip_scores (347/4)),
        confidence := cexEnv.calcConfidence (zeroVec cexEnv.embedDim),
        processed_text := some (SeverityPredictor.preprocess_text cexEnv "Server down"),
        detected_language := some (LanguageDetector.detect_language cexEnv.detectOracle
          "Server down"),
        error := none, ticket_index := none } ∧
    SeverityPredictor.predict_single failEnv "Server down" =
      { severity_score := 50, severity_category := "Medium", confidence := 0,
        processed_text := none, detected_language := none,
        error := some "regressor failure", ticket_index := none } :=
  ⟨encode_failure_silent_zero_fallback.1 2 (fun _ => .error "x") "hey" "x" rfl,
   encode_failure_silent_zero_fallback.2.1 cexEnv "Server down" "model failure" (1/2) (347/4)
     (by decide) rfl rfl cexEnv_transform_half,
   encode_failure_silent_zero_fallback.2.2 failEnv "Server down" "regressor failure"
     (by decide) rfl⟩

/-- C7: `predict_batch` returns exactly one result per input, in input
order: the `i`-th result is `predict_single` of the `i`-th text tagged with
`ticket_index = i`; and an internal failure of one item (its regression
raising) leaves that item's result carrying score 50.0 and an `error` field
while every other item's result is still `predict_single` of its own text. -/
theorem predict_batch_order_and_isolation (env : PredictorEnv) (ts : List String) (i : Nat) :
    (SeverityPredictor.predict_batch env ts).length = ts.length ∧
    (SeverityPredictor.predict_batch env ts)[i]? =
      (ts[i]?).map (fun t =>
        { SeverityPredictor.predict_single env t with ticket_index := some i }) ∧
    (∀ t msg, ts[i]? = some t → pyStripS t ≠ "" →
      env.modelPredict (MultilingualEmbeddings.encode_single_text env.embedDim
        env.modelEncode (SeverityPredictor.preprocess_text env t)) = .error msg →
      ((SeverityPredictor.predict_batch env ts)[i]?).map PredictResult.severity_score
          = some 50 ∧
      ((SeverityPredictor.predict_batch env ts)[i]?).map PredictResult.error
          = some (some msg)) := by
  have hget : (SeverityPredictor.predict_batch env ts)[i]? =
      (ts[i]?).map (fun t =>
        { SeverityPredictor.predict_single env t with ticket_index := some i }) := by
    unfold SeverityPredictor.predict_batch
    rw [List.getElem?_map, List.getElem?_enum]
    cases ts[i]? <;> rfl
  refine ⟨by simp [SeverityPredictor.predict_batch, List.enum_length], hget, ?_⟩
  intro t msg hts hstrip hmp
  have hps := predict_single_regressor_error env t msg hstrip hmp
  rw [hget, hts]
  simp [hps]

/-- C7 witness: a one-element batch in `failEnv`, whose only item hits the
regressor failure: the batch still has full length and its result carries
score 50 and the error text. -/
theorem predict_batch_order_and_isolation_witness :
    (SeverityPredictor.predict_batch failEnv ["Server down"]).length = 1 ∧
    ((SeverityPredictor.predict_batch failEnv ["Server down"])[0]?).map
        PredictResult.severity_score = some 50 ∧
    ((SeverityPredictor.predict_batch failEnv ["Server down"])[0]?).map
        PredictResult.error = some (some "regressor failure") :=
  ⟨(predict_batch_order_and_isolation failEnv ["Server down"] 0).1,
   ((predict_batch_order_and_isolation failEnv ["Server down"] 0).2.2 "Server down"
      "regressor failure" rfl (by decide) rfl).1,
   ((predict_batch_order_and_isolation failEnv ["Server down"] 0).2.2 "Server down"
      "regressor failure" rfl (by decide) rfl).2⟩

/-! ## The text cleaner -/

/-- C9 counterexample: `clean_text` is not idempotent.  Cleaning `"WWW.AB"`
once yields `"www.ab"` — the case-sensitive `www\.` URL pattern does not
match the upper-case input, and lowercasing happens only after URL removal —
but cleaning that output again removes `"www.ab"` as a URL, yielding `""`. -/
theorem clean_text_not_idempotent_cex :
    TextCleaner.clean_text cexCleaner simpleTokenize "WWW.AB" "en" = "www.ab" ∧
    TextCleaner.clean_text cexCleaner simpleTokenize
        (TextCleaner.clean_text cexCleaner simpleTokenize "WWW.AB" "en") "en" = "" ∧
    TextCleaner.clean_text cexCleaner simpleTokenize
        (TextCleaner.clean_text cexCleaner simpleTokenize "WWW.AB" "en") "en" ≠
      TextCleaner.clean_text cexCleaner simpleTokenize "WWW.AB" "en" := by
  refine ⟨by decide, by decide, by decide⟩

/-- The `collapseWsAux` output is in whitespace-normal form: every whitespace
character is `' '` and never follows whitespace. -/
theorem okAfter_collapseWsAux (l : List Char) :
    ∀ b : Bool, okAfter b (collapseWsAux b l) = true := by
  induction l with
  | nil => intro b; rfl
  | cons c cs ih =>
    intro b
    cases hc : wsB c with
    | false =>
      simp only [collapseWsAux, hc, Bool.false_eq_true, if_false, okAfter, Bool.true_and]
      exact ih false
    | true =>
      cases b with
      | false =>
        simp only [collapseWsAux, hc, if_true, Bool.false_eq_true, if_false, okAfter]
        have hsp : wsB ' ' = true := rfl
        simp only [hsp, if_true, Bool.not_false, Bool.and_true, beq_self_eq_true,
          Bool.true_and]
        exact ih true
      | true =>
        simp only [collapseWsAux, hc, if_true]
        exact ih true

/-- Normal form after a whitespace predecessor is also normal form after a
non-whitespace predecessor (the constraint only loosens). -/
theorem okAfter_weaken (l : List Char) (h : okAfter true l = true) :
    okAfter false l = true := by
  cases l with
  | nil => rfl
  | cons c cs =>
    simp only [okAfter] at h ⊢
    cases hc : wsB c with
    | false => rw [hc] at h; simpa using h
    | true => rw [hc] at h; simp at h

/-- The head of `dropWhile wsB` is never whitespace. -/
theorem headWs_dropWhile (l : List Char) : headWs (l.dropWhile wsB) = false := by
  induction l with
  | nil => rfl
  | cons c cs ih =>
    rw [List.dropWhile_cons]
    cases hc : wsB c with
    | false => simp [headWs, hc]
    | true => simpa [hc] using ih

/-- The `dropWhile wsB` scan preserves whitespace-normal form. -/
theorem okAfter_dropWhile (l : List Char) (h : okAfter false l = true) :
    okAfter false (l.dropWhile wsB) = true := by
  induction l with
  | nil => exact h
  | cons c cs ih =>
    rw [List.dropWhile_cons]
    cases hc : wsB c with
    | false => simpa using h
    | true =>
      simp only [okAfter, hc, if_true, Bool.and_eq_true] at h
      simpa using ih (okAfter_weaken cs h.2)

/-- Whitespace-normal form is closed under prefixes. -/
theorem okAfter_append_left (l2 : List Char) :
    ∀ (l1 : List Char) (b : Bool), okAfter b (l1 ++ l2) = true → okAfter b l1 = true := by
  intro l1
  induction l1 with
  | nil => intro b _; rfl
  | cons c cs ih =>
    intro b h
    simp only [List.cons_append, okAfter] at h ⊢
    rw [Bool.and_eq_true] at h ⊢
    exact ⟨h.1, ih (wsB c) h.2⟩

/-- Every list is its trailing-whitespace-stripped prefix followed by the
stripped whitespace suffix. -/
theorem dropTrailWs_append (l : List Char) :
    l = dropTrailWs l ++ (l.reverse.takeWhile wsB).reverse := by
  unfold dropTrailWs
  calc l = l.reverse.reverse := (List.reverse_reverse l).symm
    _ = (List.takeWhile wsB l.reverse ++ List.dropWhile wsB l.reverse).reverse := by
        rw [List.takeWhile_append_dropWhile]
    _ = (List.dropWhile wsB l.reverse).reverse ++ (List.takeWhile wsB l.reverse).reverse := by
        rw [List.reverse_append]

/-- The `dropTrailWs` operation preserves whitespace-normal form. -/
theorem okAfter_dropTrail (l : List Char) (h : okAfter false l = true) :
    okAfter false (dropTrailWs l) = true := by
  refine okAfter_append_left (l.reverse.takeWhile wsB).reverse (dropTrailWs l) false ?_
  rw [← dropTrailWs_append l]
  exact h

/-- The `dropTrailWs` operation preserves a non-whitespace head. -/
theorem headWs_dropTrail (l : List Char) (h : headWs l = false) :
    headWs (dropTrailWs l) = false := by
  cases hE : dropTrailWs l with
  | nil => rfl
  | cons c cs =>
    have hd := dropTrailWs_append l
    rw [hE] at hd
    rw [hd] at h
    simpa [headWs] using h

/-- The reversal of `dropTrailWs l` has a non-whitespace head (i.e. the
stripped list has no trailing whitespace). -/
theorem headWs_reverse_dropTrail (l : List Char) :
    headWs (dropTrailWs l).reverse = false := by
  unfold dropTrailWs
  rw [List.reverse_reverse]
  exact headWs_dropWhile l.reverse

/-- Collapsing whitespace is the identity on whitespace-normal text. -/
theorem collapse_of_okAfter (l : List Char) :
    ∀ b : Bool, okAfter b l = true → collapseWsAux b l = l := by
  induction l with
  | nil => intro b _; rfl
  | cons c cs ih =>
    intro b h
    simp only [okAfter] at h
    rw [Bool.and_eq_true] at h
    cases hc : wsB c with
    | false =>
      simp only [collapseWsAux, hc, Bool.false_eq_true, if_false, List.cons.injEq, true_and]
      rw [hc] at h
      exact ih false h.2
    | true =>
      rw [hc] at h
      simp only [if_true, Bool.and_eq_true, beq_iff_eq, Bool.not_eq_eq_eq_not,
        Bool.not_true] at h
      obtain ⟨⟨hc', hb⟩, h2⟩ := h
      subst hb
      subst hc'
      simp only [collapseWsAux, hc, if_true, Bool.false_eq_true, if_false, List.cons.injEq,
        true_and]
      exact ih true h2

/-- C9 amended: `clean_text` as a whole is not idempotent (see the
counterexample: lowercasing can expose a URL pattern that only the second
pass removes), but the whitespace-collapse stage named by the spec is:
`_normalize_whitespace` applied twice equals `_normalize_whitespace` applied
once, for every input string. -/
theorem normalize_whitespace_idempotent (s : String) :
    normalizeWhitespaceS (normalizeWhitespaceS s) = normalizeWhitespaceS s := by
  have main : ∀ l : List Char,
      normalizeWhitespaceL (normalizeWhitespaceL l) = normalizeWhitespaceL l := by
    intro l
    set m := normalizeWhitespaceL l with hm
    have h1 : okAfter false m = true := by
      rw [hm]
      unfold normalizeWhitespaceL pyStripL dropLeadWs collapseWs
      exact okAfter_dropTrail _ (okAfter_dropWhile _ (okAfter_collapseWsAux l false))
    have h2 : headWs m = false := by
      rw [hm]
      unfold normalizeWhitespaceL pyStripL dropLeadWs
      exact headWs_dropTrail _ (headWs_dropWhile _)
    have h3 : headWs m.reverse = false := by
      rw [hm]
      unfold normalizeWhitespaceL pyStripL
      exact headWs_reverse_dropTrail _
    show normalizeWhitespaceL m = m
    unfold normalizeWhitespaceL pyStripL dropLeadWs dropTrailWs collapseWs
    rw [collapse_of_okAfter m false h1]
    have hdl : m.dropWhile wsB = m := by
      cases hE : m with
      | nil => rfl
      | cons c cs =>
        rw [List.dropWhile_cons]
        rw [show wsB c = false from by rw [hE] at h2; simpa [headWs] using h2]
        simp
    rw [hdl]
    have hdt : m.reverse.dropWhile wsB = m.reverse := by
      cases hE : m.reverse with
      | nil => rfl
      | cons c cs =>
        rw [List.dropWhile_cons]
        rw [show wsB c = false from by rw [hE] at h3; simpa [headWs] using h3]
        simp
    rw [hdt, List.reverse_reverse]
  show String.mk (normalizeWhitespaceL (String.mk (normalizeWhitespaceL s.data)).data) =
    String.mk (normalizeWhitespaceL s.data)
  exact congrArg String.mk (main s.data)
